import Mathlib

/-!
Shallow embedding of `src/alertbot.py`: a webhook service that receives a
batch of alerts, resolves each alert's team to a list of contacts, acquires
a cached OIDC bearer token, and delivers one SMS per recipient.  External
effects (cache reads, identity-provider exchanges, cache writes, directory
membership checks, SMS sends) are recorded as an event trace; Python
exceptions (`HTTPException`, `KeyError`, `UnboundLocalError`) are modelled
with `Except`.
-/

namespace Alertbot

/-- A member of a team, as stored in the contact directory: an object with a
phone number (`member['phone']`, src/alertbot.py:108,111). -/
structure Contact where
  phone : String
deriving DecidableEq

/-- One alert of the inbound batch.  `description` models
`alert.get('annotations', {}).get('description', ...)` (none = key absent) and
`team` models `alert.get('labels', {}).get('team')` (none = label absent;
`some ""` = an explicitly empty label, which Python treats as falsy). -/
structure InAlert where
  description : Option String
  team : Option String
deriving DecidableEq

/-- The contact directory loaded from the contacts file at startup
(src/alertbot.py:37-39): a mapping from team identifier to member list. -/
abbrev Directory := List (String × List Contact)

/-- Dictionary lookup `contacts[t]` / membership test `t in contacts`. -/
def lookupTeam (d : Directory) (t : String) : Option (List Contact) :=
  (d.find? (fun p => p.1 == t)).map (fun p => p.2)

/-- Observable external effects of the pipeline, in order of occurrence. -/
inductive Event where
  | cacheRead (hit : Bool)
  | idpExchange (success : Bool)
  | cacheWrite (token : String) (expiresIn : Nat)
  | dirCheck (team : String)
  | send (phone message token : String) (ok : Bool)
deriving DecidableEq

/-- Python exceptions the handler can raise: `HTTPException(500)` from the
token exchange (src/alertbot.py:61) or from a failed send
(src/alertbot.py:90), `KeyError` from `contacts[team]`
(src/alertbot.py:107), and `UnboundLocalError` from reading the loop
variable `member` before any binding (src/alertbot.py:111). -/
inductive Err where
  | authFailure
  | deliveryFailure
  | keyError (key : String)
  | unboundLocal
deriving DecidableEq

/-- External world as seen by one request: the identity provider's response
to a token exchange (`some tok` on HTTP 200 with `access_token` `tok`, `none`
on any non-200 status) and the SMS gateway's response per destination phone
(`true` = HTTP 200). -/
structure Env where
  idp : Option String
  smsOk : String → Bool

/-- `get_oidc_token` (src/alertbot.py:41-70): read the Redis key
`oidc_token`; on a hit return the cached token; on a miss perform the
client-credentials exchange, raising `HTTPException` on a non-200 response,
otherwise store the fresh token with a fixed 120-second expiry and return
it.  Result: (events, new cache state, outcome). -/
def get_oidc_token (env : Env) (cache : Option String) :
    List Event × Option String × Except Err String :=
  match cache with
  | some t => ([Event.cacheRead true], some t, Except.ok t)
  | none =>
    match env.idp with
    | none =>
      ([Event.cacheRead false, Event.idpExchange false], none,
        Except.error Err.authFailure)
    | some tok =>
      ([Event.cacheRead false, Event.idpExchange true, Event.cacheWrite tok 120],
        some tok, Except.ok tok)

/-- `send_sms` (src/alertbot.py:72-91): one POST to the SMS gateway carrying
the bearer token; a non-200 response raises `HTTPException` (the
DeliveryFailure of the design). -/
def send_sms (env : Env) (phone message token : String) :
    List Event × Except Err Unit :=
  if env.smsOk phone then
    ([Event.send phone message token true], Except.ok ())
  else
    ([Event.send phone message token false], Except.error Err.deliveryFailure)

/-- Mutable locals of one invocation of the `/alert` handler: the shared
token cache, and the current binding of the Python loop variable `member`
(`none` = not yet bound in this call; it persists across iterations of the
outer alert loop because it is function-local). -/
structure St where
  cache : Option String
  member : Option Contact
deriving DecidableEq

/-- The `for member in contacts[team]` loop (src/alertbot.py:107-108):
send to each member in list order, rebinding `member` at each iteration; a
raise aborts the loop with `member` bound to the failing element.  Returns
(events, final binding of `member`, outcome). -/
def sendLoop (env : Env) (message token : String) :
    List Contact → Option Contact → List Event × Option Contact × Except Err Unit
  | [], mem => ([], mem, Except.ok ())
  | m :: rest, _ =>
    let s := send_sms env m.phone message token
    match s.2 with
    | Except.error e => (s.1, some m, Except.error e)
    | Except.ok _ =>
      let r := sendLoop env message token rest (some m)
      (s.1 ++ r.1, r.2.1, r.2.2)

/-- The fallback branch (src/alertbot.py:104-111): set `team = 'devops'`,
look it up (`contacts[team]` raises `KeyError` when absent), send to every
member in order, and then — the statement dedented out of the loop at
src/alertbot.py:111 — send once more to whatever `member` is bound to,
raising `UnboundLocalError` when it was never bound. -/
def fallbackBranch (contacts : Directory) (env : Env) (mem0 : Option Contact)
    (message token : String) : List Event × Option Contact × Except Err Unit :=
  match lookupTeam contacts "devops" with
  | none => ([], mem0, Except.error (Err.keyError "devops"))
  | some members =>
    let r := sendLoop env message token members mem0
    match r.2.2 with
    | Except.error e => (r.1, r.2.1, Except.error e)
    | Except.ok _ =>
      match r.2.1 with
      | none => (r.1, none, Except.error Err.unboundLocal)
      | some m =>
        let s := send_sms env m.phone message token
        (r.1 ++ s.1, some m, s.2)

/-- One iteration of the alert loop (src/alertbot.py:98-111): build the
message text, read the team label, acquire a token, and then — only when
the label is falsy or not a key of the directory — run the fallback branch.
A truthy label found in the directory skips the whole `if` body, so no send
is attempted for it. -/
def processAlert (contacts : Directory) (env : Env) (st : St) (a : InAlert) :
    List Event × St × Except Err Unit :=
  let message := "Alert: " ++ a.description.getD "No description provided"
  let tk := get_oidc_token env st.cache
  match tk.2.2 with
  | Except.error e => (tk.1, ⟨tk.2.1, st.member⟩, Except.error e)
  | Except.ok token =>
    match a.team with
    | none =>
      let f := fallbackBranch contacts env st.member message token
      (tk.1 ++ f.1, ⟨tk.2.1, f.2.1⟩, f.2.2)
    | some t =>
      if t == "" then
        let f := fallbackBranch contacts env st.member message token
        (tk.1 ++ f.1, ⟨tk.2.1, f.2.1⟩, f.2.2)
      else if (lookupTeam contacts t).isSome then
        (tk.1 ++ [Event.dirCheck t], ⟨tk.2.1, st.member⟩, Except.ok ())
      else
        let f := fallbackBranch contacts env st.member message token
        (tk.1 ++ [Event.dirCheck t] ++ f.1, ⟨tk.2.1, f.2.1⟩, f.2.2)

/-- The alert loop (src/alertbot.py:98-111): alerts in arrival order; an
uncaught exception aborts the remaining iterations. -/
def processAlerts (contacts : Directory) (env : Env) :
    St → List InAlert → List Event × St × Except Err Unit
  | st, [] => ([], st, Except.ok ())
  | st, a :: rest =>
    let r := processAlert contacts env st a
    match r.2.2 with
    | Except.error e => (r.1, r.2.1, Except.error e)
    | Except.ok _ =>
      let r2 := processAlerts contacts env r.2.1 rest
      (r.1 ++ r2.1, r2.2.1, r2.2.2)

/-- The JSON body of the success response (src/alertbot.py:114). -/
structure Resp where
  status : String
deriving DecidableEq

/-- The `POST /alert` endpoint (src/alertbot.py:93-114):
`data.get('alerts', [])` (so a missing key means an empty batch), then the
alert loop with a fresh unbound `member`, then the fixed success body.  An
uncaught exception becomes the request's error outcome. -/
def alert (contacts : Directory) (env : Env) (cache : Option String)
    (alertsField : Option (List InAlert)) : List Event × Except Err Resp :=
  let alerts := alertsField.getD []
  let r := processAlerts contacts env ⟨cache, none⟩ alerts
  (r.1, r.2.2.map (fun _ => ⟨"Alerts processed"⟩))

/-- The phones of the delivery attempts in a trace, in order. -/
def sendPhones (evs : List Event) : List String :=
  evs.filterMap (fun e => match e with
    | Event.send p _ _ _ => some p
    | _ => none)

/-- Whether an event is an SMS delivery attempt. -/
def isSend : Event → Bool
  | Event.send _ _ _ _ => true
  | _ => false

/-- Whether an event is a token-cache read (the first action of every
invocation of `get_oidc_token`, hence one per token acquisition). -/
def isCacheRead : Event → Bool
  | Event.cacheRead _ => true
  | _ => false

/-- Number of token acquisitions in a trace. -/
def acquireCount (evs : List Event) : Nat :=
  (evs.filter isCacheRead).length

/-- Number of identity-provider exchanges in a trace. -/
def exchangeCount (evs : List Event) : Nat :=
  (evs.filter (fun e => match e with
    | Event.idpExchange _ => true
    | _ => false)).length

/-- True when no directory membership check precedes the first token-cache
read of the trace. -/
def noCheckBeforeAcquire : List Event → Bool
  | [] => true
  | Event.cacheRead _ :: _ => true
  | Event.dirCheck _ :: _ => false
  | _ :: rest => noCheckBeforeAcquire rest

/-- The events of two consecutive token acquisitions, threading the cache
state from the first into the second. -/
def twoAcquisitions (env : Env) (cache : Option String) : List Event :=
  let r1 := get_oidc_token env cache
  let r2 := get_oidc_token env r1.2.1
  r1.1 ++ r2.1

/-! Concrete directories, environments and alerts used as inputs. -/

/-- A directory with one known team `sre` and no `devops` entry. -/
def dirSre : Directory := [("sre", [⟨"+1000"⟩])]

/-- A directory whose fallback team `devops` has two members. -/
def dirDevops : Directory := [("devops", [⟨"+1"⟩, ⟨"+2"⟩])]

/-- A directory whose fallback team `devops` has an empty member list. -/
def dirDevopsEmpty : Directory := [("devops", [])]

/-- An environment where the token exchange succeeds and every send gets
HTTP 200. -/
def envOk : Env := ⟨some "tok", fun _ => true⟩

/-- An environment where delivery to phone `+1` fails and all others
succeed. -/
def envFailFirst : Env := ⟨some "tok", fun p => p != "+1"⟩

/-- An environment where the identity provider returns a non-success
status. -/
def envIdpDown : Env := ⟨none, fun _ => true⟩

/-- An alert labelled with the known team `sre`. -/
def alertSre : InAlert := ⟨some "disk full", some "sre"⟩

/-- An alert with no team label. -/
def alertNoTeam : InAlert := ⟨some "d", none⟩

/-- A second alert with no team label. -/
def alertNoTeam2 : InAlert := ⟨some "e", none⟩

/-! Helper lemmas about the trace observers. -/

@[simp]
theorem acquireCount_nil : acquireCount [] = 0 := rfl

@[simp]
theorem acquireCount_append (xs ys : List Event) :
    acquireCount (xs ++ ys) = acquireCount xs + acquireCount ys := by
  simp [acquireCount]

@[simp]
theorem acquireCount_cacheRead (b : Bool) (l : List Event) :
    acquireCount (Event.cacheRead b :: l) = acquireCount l + 1 := by
  simp [acquireCount, isCacheRead]

@[simp]
theorem acquireCount_idpExchange (b : Bool) (l : List Event) :
    acquireCount (Event.idpExchange b :: l) = acquireCount l := by
  simp [acquireCount, isCacheRead]

@[simp]
theorem acquireCount_cacheWrite (t : String) (n : Nat) (l : List Event) :
    acquireCount (Event.cacheWrite t n :: l) = acquireCount l := by
  simp [acquireCount, isCacheRead]

@[simp]
theorem acquireCount_dirCheck (t : String) (l : List Event) :
    acquireCount (Event.dirCheck t :: l) = acquireCount l := by
  simp [acquireCount, isCacheRead]

@[simp]
theorem acquireCount_send (p m t : String) (b : Bool) (l : List Event) :
    acquireCount (Event.send p m t b :: l) = acquireCount l := by
  simp [acquireCount, isCacheRead]

@[simp]
theorem sendPhones_nil : sendPhones [] = [] := rfl

@[simp]
theorem sendPhones_append (xs ys : List Event) :
    sendPhones (xs ++ ys) = sendPhones xs ++ sendPhones ys := by
  simp [sendPhones]

@[simp]
theorem sendPhones_cacheRead (b : Bool) (l : List Event) :
    sendPhones (Event.cacheRead b :: l) = sendPhones l := rfl

@[simp]
theorem sendPhones_idpExchange (b : Bool) (l : List Event) :
    sendPhones (Event.idpExchange b :: l) = sendPhones l := rfl

@[simp]
theorem sendPhones_cacheWrite (t : String) (n : Nat) (l : List Event) :
    sendPhones (Event.cacheWrite t n :: l) = sendPhones l := rfl

@[simp]
theorem sendPhones_dirCheck (t : String) (l : List Event) :
    sendPhones (Event.dirCheck t :: l) = sendPhones l := rfl

@[simp]
theorem sendPhones_send (p m t : String) (b : Bool) (l : List Event) :
    sendPhones (Event.send p m t b :: l) = p :: sendPhones l := rfl

@[simp]
theorem noCheckBeforeAcquire_cacheRead (b : Bool) (l : List Event) :
    noCheckBeforeAcquire (Event.cacheRead b :: l) = true := rfl

/-- Every event emitted by the member loop is a send. -/
theorem sendLoop_all_send (env : Env) (message token : String)
    (ms : List Contact) :
    ∀ mem : Option Contact,
      (sendLoop env message token ms mem).1.all isSend = true := by
  induction ms with
  | nil => intro mem; rfl
  | cons m rest ih =>
    intro mem
    by_cases h : env.smsOk m.phone
    · simpa [sendLoop, send_sms, h, isSend] using ih (some m)
    · simp [sendLoop, send_sms, h, isSend]

/-- Every event emitted by the fallback branch is a send. -/
theorem fallbackBranch_all_send (contacts : Directory) (env : Env)
    (mem0 : Option Contact) (message token : String) :
    (fallbackBranch contacts env mem0 message token).1.all isSend = true := by
  unfold fallbackBranch
  cases hdev : lookupTeam contacts "devops" with
  | none => rfl
  | some members =>
    have hall := sendLoop_all_send env message token members mem0
    cases hr : (sendLoop env message token members mem0).2.2 with
    | error e => simpa [hr] using hall
    | ok u =>
      cases hm : (sendLoop env message token members mem0).2.1 with
      | none => simpa [hr, hm] using hall
      | some m =>
        by_cases hs : env.smsOk m.phone
        · simp [hr, hm, send_sms, hs, isSend, List.all_append]
          exact List.all_eq_true.mp hall
        · simp [hr, hm, send_sms, hs, isSend, List.all_append]
          exact List.all_eq_true.mp hall

/-- A trace made only of sends contains no token acquisition. -/
theorem acquireCount_eq_zero_of_all_send (evs : List Event)
    (h : evs.all isSend = true) : acquireCount evs = 0 := by
  induction evs with
  | nil => rfl
  | cons e l ih =>
    simp [List.all_cons] at h
    cases e <;> simp_all [isSend]

@[simp]
theorem fallbackBranch_no_acquire (contacts : Directory) (env : Env)
    (mem0 : Option Contact) (message token : String) :
    acquireCount (fallbackBranch contacts env mem0 message token).1 = 0 :=
  acquireCount_eq_zero_of_all_send _
    (fallbackBranch_all_send contacts env mem0 message token)

/-- Processing one alert performs exactly one token acquisition. -/
theorem processAlert_acquires_once (contacts : Directory) (env : Env)
    (st : St) (a : InAlert) :
    acquireCount (processAlert contacts env st a).1 = 1 := by
  obtain ⟨cache, mem⟩ := st
  obtain ⟨idp, sms⟩ := env
  cases cache with
  | none =>
    cases idp with
    | none => simp [processAlert, get_oidc_token]
    | some tok =>
      cases hteam : a.team with
      | none => simp [processAlert, get_oidc_token, hteam]
      | some t =>
        by_cases ht : (t == "") = true
        · simp [processAlert, get_oidc_token, hteam, ht]
        · by_cases hl : (lookupTeam contacts t).isSome
          · simp [processAlert, get_oidc_token, hteam, ht, hl]
          · simp [processAlert, get_oidc_token, hteam, ht, hl]
  | some tok =>
    cases hteam : a.team with
    | none => simp [processAlert, get_oidc_token, hteam]
    | some t =>
      by_cases ht : (t == "") = true
      · simp [processAlert, get_oidc_token, hteam, ht]
      · by_cases hl : (lookupTeam contacts t).isSome
        · simp [processAlert, get_oidc_token, hteam, ht, hl]
        · simp [processAlert, get_oidc_token, hteam, ht, hl]

/-- No directory membership check precedes the token acquisition when
processing one alert. -/
theorem processAlert_no_early_check (contacts : Directory) (env : Env)
    (st : St) (a : InAlert) :
    noCheckBeforeAcquire (processAlert contacts env st a).1 = true := by
  obtain ⟨cache, mem⟩ := st
  obtain ⟨idp, sms⟩ := env
  cases cache with
  | none =>
    cases idp with
    | none => simp [processAlert, get_oidc_token]
    | some tok =>
      cases hteam : a.team with
      | none => simp [processAlert, get_oidc_token, hteam]
      | some t =>
        by_cases ht : (t == "") = true
        · simp [processAlert, get_oidc_token, hteam, ht]
        · by_cases hl : (lookupTeam contacts t).isSome
          · simp [processAlert, get_oidc_token, hteam, ht, hl]
          · simp [processAlert, get_oidc_token, hteam, ht, hl]
  | some tok =>
    cases hteam : a.team with
    | none => simp [processAlert, get_oidc_token, hteam]
    | some t =>
      by_cases ht : (t == "") = true
      · simp [processAlert, get_oidc_token, hteam, ht]
      · by_cases hl : (lookupTeam contacts t).isSome
        · simp [processAlert, get_oidc_token, hteam, ht, hl]
        · simp [processAlert, get_oidc_token, hteam, ht, hl]

/-! Claim theorems. -/

/-- Claim C1: on the spec's own scenario — one alert labelled with the
known team `sre`, directory mapping `sre` to the single member `+1000` —
the handler attempts no delivery at all: the only send statements sit
inside the fallback `if` branch, which a known team skips entirely.  The
trace holds just the cache read and the membership check, so "exactly one
delivery to every member of that team" fails on the code. -/
theorem C1_known_team_zero_sends :
    alert dirSre envOk (some "cached") (some [alertSre]) =
      ([Event.cacheRead true, Event.dirCheck "sre"],
        Except.ok ⟨"Alerts processed"⟩)
    ∧ sendPhones (alert dirSre envOk (some "cached") (some [alertSre])).1 = [] :=
  ⟨rfl, rfl⟩

/-- Claim C2: with `team` omitted and fallback members `+1, +2`, the code
attempts sends to `+1`, `+2` and then `+2` again — the statement dedented
out of the member loop (src/alertbot.py:111) duplicates the delivery to the
last member, refuting "no member duplicated". -/
theorem C2_fallback_duplicates_last_member :
    sendPhones (alert dirDevops envOk (some "tok") (some [alertNoTeam])).1 =
      ["+1", "+2", "+2"] := rfl

/-- Claim C3: with `team` omitted and no `devops` entry in the directory,
the code attempts zero sends but raises `KeyError` at `contacts['devops']`
(src/alertbot.py:107) — the directory miss on the fallback team is not
handled, refuting "does not raise". -/
theorem C3_fallback_miss_raises_keyerror :
    (alert dirSre envOk (some "tok") (some [alertNoTeam])).2 =
      Except.error (Err.keyError "devops")
    ∧ sendPhones (alert dirSre envOk (some "tok") (some [alertNoTeam])).1 = [] :=
  ⟨rfl, rfl⟩

/-- Claim C4, counterexample: fallback members `+1, +2` with delivery to
`+1` failing, and a second alert in the batch: only the one failing send is
attempted — the second member and the second alert are never reached and
the exception propagates out of the batch, so the claim is false at this
input. -/
theorem C4_first_failure_aborts_batch :
    sendPhones (alert dirDevops envFailFirst (some "tok")
        (some [alertNoTeam, alertNoTeam2])).1 = ["+1"]
    ∧ (alert dirDevops envFailFirst (some "tok")
        (some [alertNoTeam, alertNoTeam2])).2 =
      Except.error Err.deliveryFailure :=
  ⟨rfl, rfl⟩

/-- Claim C4 as amended: there is no failure count and no isolation — when
delivery to the first member of the resolved (fallback) team fails, the
exception propagates uncaught: exactly that one delivery is attempted, no
subsequent member of the team and no subsequent alert of the batch is
processed, and the whole request fails with the delivery error. -/
theorem C4_amended_failure_propagates (contacts : Directory) (env : Env)
    (tok : String) (a : InAlert) (rest : List InAlert) (c1 : Contact)
    (cs : List Contact)
    (hteam : a.team = none)
    (hdev : lookupTeam contacts "devops" = some (c1 :: cs))
    (hfail : env.smsOk c1.phone = false) :
    sendPhones (processAlerts contacts env ⟨some tok, none⟩ (a :: rest)).1 =
      [c1.phone]
    ∧ (processAlerts contacts env ⟨some tok, none⟩ (a :: rest)).2.2 =
      Except.error Err.deliveryFailure := by
  constructor <;>
    simp [processAlerts, processAlert, hteam, get_oidc_token, fallbackBranch,
      hdev, sendLoop, send_sms, hfail]

/-- Witness for the amended C4 at a concrete batch. -/
theorem C4_amended_failure_propagates_witness :
    sendPhones (processAlerts dirDevops envFailFirst ⟨some "tok", none⟩
        [alertNoTeam, alertNoTeam2]).1 = ["+1"]
    ∧ (processAlerts dirDevops envFailFirst ⟨some "tok", none⟩
        [alertNoTeam, alertNoTeam2]).2.2 = Except.error Err.deliveryFailure :=
  C4_amended_failure_propagates dirDevops envFailFirst "tok" alertNoTeam
    [alertNoTeam2] ⟨"+1"⟩ [⟨"+2"⟩] rfl rfl rfl

/-- Claim C5, counterexample: with an empty cache and the identity provider
returning a non-success status, a batch of two alerts stops at the first
failed exchange: the whole trace is the single failed acquisition, no
delivery is attempted, and the second alert is never processed (processing
it would at least add a second cache read) — refuting "subsequent alerts in
the same batch are still processed". -/
theorem C5_auth_failure_aborts_batch :
    alert dirDevops envIdpDown none (some [alertNoTeam, alertNoTeam2]) =
      ([Event.cacheRead false, Event.idpExchange false],
        Except.error Err.authFailure) := rfl

/-- Claim C5 as amended: when the identity provider returns a non-success
status and no token is cached, token acquisition fails with the auth error;
no delivery is attempted for the current alert, and the exception aborts
the whole batch — subsequent alerts are not processed and the request
fails. -/
theorem C5_amended_auth_failure (contacts : Directory) (env : Env)
    (a : InAlert) (rest : List InAlert) (hidp : env.idp = none) :
    processAlerts contacts env ⟨none, none⟩ (a :: rest) =
      ([Event.cacheRead false, Event.idpExchange false], ⟨none, none⟩,
        Except.error Err.authFailure) := by
  simp [processAlerts, processAlert, get_oidc_token, hidp]

/-- Witness for the amended C5 at a concrete batch. -/
theorem C5_amended_auth_failure_witness :
    processAlerts dirDevops envIdpDown ⟨none, none⟩ [alertNoTeam, alertNoTeam2] =
      ([Event.cacheRead false, Event.idpExchange false], ⟨none, none⟩,
        Except.error Err.authFailure) :=
  C5_amended_auth_failure dirDevops envIdpDown alertNoTeam [alertNoTeam2] rfl

/-- Claim C6: a cache hit returns the cached token with no
identity-provider exchange; a cache miss with a successful exchange stores
the fresh token with the fixed 120-second validity window before returning
it; and two consecutive acquisitions threading the cache (both falling
inside the window, i.e. no expiry between them) perform at most one
exchange. -/
theorem C6_token_cache_reuse (env : Env) (tok : String) :
    get_oidc_token env (some tok) =
      ([Event.cacheRead true], some tok, Except.ok tok)
    ∧ (∀ t, env.idp = some t →
        get_oidc_token env none =
          ([Event.cacheRead false, Event.idpExchange true,
            Event.cacheWrite t 120], some t, Except.ok t))
    ∧ (∀ cache, env.idp.isSome = true →
        exchangeCount (twoAcquisitions env cache) ≤ 1) := by
  refine ⟨rfl, ?_, ?_⟩
  · intro t h
    simp [get_oidc_token, h]
  · intro cache h
    obtain ⟨t, ht⟩ := Option.isSome_iff_exists.mp h
    cases cache with
    | some c => simp [twoAcquisitions, get_oidc_token, exchangeCount]
    | none => simp [twoAcquisitions, get_oidc_token, ht, exchangeCount]

/-- Witness for C6 at a concrete environment and cache states. -/
theorem C6_token_cache_reuse_witness :
    get_oidc_token envOk (some "tok") =
      ([Event.cacheRead true], some "tok", Except.ok "tok")
    ∧ get_oidc_token envOk none =
        ([Event.cacheRead false, Event.idpExchange true,
          Event.cacheWrite "tok" 120], some "tok", Except.ok "tok")
    ∧ exchangeCount (twoAcquisitions envOk none) ≤ 1 :=
  ⟨(C6_token_cache_reuse envOk "tok").1,
   (C6_token_cache_reuse envOk "tok").2.1 "tok" rfl,
   (C6_token_cache_reuse envOk "tok").2.2 none rfl⟩

/-- Claim C7, counterexample: a successfully processed batch with three
delivery attempts and the successfully processed empty batch return the
very same response value, so the response cannot carry counts of alerts
processed or of deliveries attempted or failed. -/
theorem C7_response_carries_no_counts :
    (alert dirDevops envOk (some "tok") (some [alertNoTeam])).2 =
      (alert dirDevops envOk (some "tok") (some [])).2
    ∧ sendPhones (alert dirDevops envOk (some "tok") (some [alertNoTeam])).1 =
        ["+1", "+2", "+2"]
    ∧ sendPhones (alert dirDevops envOk (some "tok") (some [])).1 = [] :=
  ⟨rfl, rfl, rfl⟩

/-- Claim C7 as amended: every successfully processed batch returns the one
fixed body, status "Alerts processed", independent of any counts. -/
theorem C7_amended_fixed_success_body (contacts : Directory) (env : Env)
    (cache : Option String) (body : Option (List InAlert)) (r : Resp)
    (h : (alert contacts env cache body).2 = Except.ok r) :
    r = ⟨"Alerts processed"⟩ := by
  cases hx : (processAlerts contacts env ⟨cache, none⟩ (body.getD [])).2.2 with
  | error e => simp [alert, hx, Except.map] at h
  | ok u =>
    simp [alert, hx, Except.map] at h
    exact h.symm

/-- Witness for the amended C7 at a concrete successful batch. -/
theorem C7_amended_fixed_success_body_witness :
    (⟨"Alerts processed"⟩ : Resp) = ⟨"Alerts processed"⟩ :=
  C7_amended_fixed_success_body dirDevops envOk (some "tok")
    (some [alertNoTeam]) ⟨"Alerts processed"⟩ rfl

/-- Claim C8: an alert taking the fallback branch (missing, empty or
unknown team label) while the `devops` member list is empty, in a handler
invocation where the loop variable `member` was never bound, fails with an
unbound-variable error: the send at src/alertbot.py:111 reads `member`
after (outside) the loop that would bind it. -/
theorem C8_empty_fallback_unbound_local (contacts : Directory) (env : Env)
    (tok : String) (a : InAlert)
    (hfb : a.team = none ∨ a.team = some "" ∨
      (∃ t, a.team = some t ∧ lookupTeam contacts t = none))
    (hdev : lookupTeam contacts "devops" = some []) :
    (processAlert contacts env ⟨some tok, none⟩ a).2.2 =
      Except.error Err.unboundLocal := by
  rcases hfb with h | h | ⟨t, h, hl⟩
  · simp [processAlert, get_oidc_token, h, fallbackBranch, hdev, sendLoop]
  · simp [processAlert, get_oidc_token, h, fallbackBranch, hdev, sendLoop]
  · by_cases he : t = ""
    · subst he
      simp [processAlert, get_oidc_token, h, fallbackBranch, hdev, sendLoop]
    · simp [processAlert, get_oidc_token, h, he, hl, fallbackBranch, hdev,
        sendLoop]

/-- Witness for C8: empty `devops` list, first alert of the request. -/
theorem C8_empty_fallback_unbound_local_witness :
    (processAlert dirDevopsEmpty envOk ⟨some "tok", none⟩
        ⟨none, none⟩).2.2 = Except.error Err.unboundLocal :=
  C8_empty_fallback_unbound_local dirDevopsEmpty envOk "tok" ⟨none, none⟩
    (Or.inl rfl) rfl

/-- Claim C9: processing any single alert performs exactly one token
acquisition (one cache read, possibly followed by an exchange), no
directory membership check precedes it, and an alert whose team label is
truthy and present in the directory produces no delivery attempt at all —
yet the acquisition still happens for it. -/
theorem C9_acquire_once_before_check (contacts : Directory) (env : Env)
    (st : St) (a : InAlert) :
    acquireCount (processAlert contacts env st a).1 = 1
    ∧ noCheckBeforeAcquire (processAlert contacts env st a).1 = true
    ∧ (∀ t, a.team = some t → (t == "") = false →
        (lookupTeam contacts t).isSome = true →
        sendPhones (processAlert contacts env st a).1 = []) := by
  refine ⟨processAlert_acquires_once contacts env st a,
    processAlert_no_early_check contacts env st a, ?_⟩
  intro t hteam ht hl
  obtain ⟨cache, mem⟩ := st
  obtain ⟨idp, sms⟩ := env
  cases cache with
  | none =>
    cases idp with
    | none => simp [processAlert, get_oidc_token]
    | some tok => simp [processAlert, get_oidc_token, hteam, ht, hl]
  | some tok => simp [processAlert, get_oidc_token, hteam, ht, hl]

/-- Witness for C9 at a known-team alert with a cached token. -/
theorem C9_acquire_once_before_check_witness :
    acquireCount (processAlert dirSre envOk ⟨some "tok", none⟩ alertSre).1 = 1
    ∧ noCheckBeforeAcquire
        (processAlert dirSre envOk ⟨some "tok", none⟩ alertSre).1 = true
    ∧ sendPhones (processAlert dirSre envOk ⟨some "tok", none⟩ alertSre).1 = [] :=
  ⟨(C9_acquire_once_before_check dirSre envOk ⟨some "tok", none⟩ alertSre).1,
   (C9_acquire_once_before_check dirSre envOk ⟨some "tok", none⟩ alertSre).2.1,
   (C9_acquire_once_before_check dirSre envOk ⟨some "tok", none⟩ alertSre).2.2
     "sre" rfl rfl rfl⟩

/-- Claim C10: a parseable body without the `alerts` key, and one with an
empty list, are both processed as the empty batch: empty trace (no token
acquisition, no sends), no rejection as malformed, and the fixed success
body is returned. -/
theorem C10_missing_or_empty_alerts (contacts : Directory) (env : Env)
    (cache : Option String) :
    alert contacts env cache none = ([], Except.ok ⟨"Alerts processed"⟩)
    ∧ alert contacts env cache (some []) =
        ([], Except.ok ⟨"Alerts processed"⟩) :=
  ⟨rfl, rfl⟩

end Alertbot
